import Mathlib

/-!
Shallow embedding of the Flugschule Mallorca form-handling code:
the client-side field validator and form lifecycle from the main
script (`validateField`, `validateForm`, the submit handler wired up by
`initContactForm`, `handleFormSuccess`, `handleFormError`), and the two
serverless form-submission handlers (`netlify/functions/contact-form.js`
and `api/contact.js`).

Field values are modelled as `List Char`; machine strings used only as
labels/messages stay `String`.
-/

namespace Flugschule

/-- Whitespace characters as JavaScript treats them in `String.prototype.trim`
and in the regex class `\s` (ASCII whitespace plus no-break space). -/
def isJsWhitespace (c : Char) : Bool :=
  c == ' ' || c == '\t' || c == '\n' || c == '\r' ||
  c == Char.ofNat 11 || c == Char.ofNat 12 || c == Char.ofNat 160

/-- `value.trim()`: strip leading and trailing whitespace. -/
def jsTrim (s : List Char) : List Char :=
  ((s.dropWhile isJsWhitespace).reverse.dropWhile isJsWhitespace).reverse

/-- One character of the class `[^\s@]` used by the email regex. -/
def emailClassChar (c : Char) : Bool :=
  !isJsWhitespace c && c != '@'

/-- Decision procedure for the email regex `^[^\s@]+@[^\s@]+\.[^\s@]+$`
(used both by `validateField` and by the serverless handlers).
The part before the first `@` must be a non-empty run of `[^\s@]`; the part
after it must consist of `[^\s@]` characters and contain a dot that has at
least one character before it and after it. -/
def emailRegexTest (cs : List Char) : Bool :=
  let lcl := cs.takeWhile (fun c => c != '@')
  match cs.dropWhile (fun c => c != '@') with
  | [] => false
  | _ :: domain =>
    !lcl.isEmpty && lcl.all emailClassChar && domain.all emailClassChar &&
      ((domain.drop 1).dropLast.any (fun c => c == '.'))

/-- One character of the class `[0-9\s\-\(\)\.]` used by the phone regex. -/
def phoneClassChar (c : Char) : Bool :=
  c.isDigit || isJsWhitespace c || c == '-' || c == '(' || c == ')' || c == '.'

/-- Decision procedure for the phone regex `^[\+]?[0-9\s\-\(\)\.]{8,}$`:
an optional leading plus sign followed by at least eight characters of the
class (a plus sign is not in the class, so the match is deterministic). -/
def phoneRegexTest (cs : List Char) : Bool :=
  let body := if cs.head? = some '+' then cs.tail else cs
  decide (8 ≤ body.length) && body.all phoneClassChar

/-- One character of the class `[a-zA-ZäöüÄÖÜß\s\-\.]` used by the name regex. -/
def nameClassChar (c : Char) : Bool :=
  (decide ('a' ≤ c) && decide (c ≤ 'z')) || (decide ('A' ≤ c) && decide (c ≤ 'Z')) ||
  c == 'ä' || c == 'ö' || c == 'ü' || c == 'Ä' || c == 'Ö' || c == 'Ü' || c == 'ß' ||
  isJsWhitespace c || c == '-' || c == '.'

/-- Decision procedure for the name regex `^[a-zA-ZäöüÄÖÜß\s\-\.]{2,}$`. -/
def nameRegexTest (cs : List Char) : Bool :=
  decide (2 ≤ cs.length) && cs.all nameClassChar

/-- German user-facing messages produced by `validateField`. -/
def msgPrivacy : String := "Sie müssen der Datenschutzerklärung zustimmen."

def msgRequiredName : String := "Bitte geben Sie Ihren Namen ein."

def msgRequiredEmail : String := "Bitte geben Sie Ihre E-Mail-Adresse ein."

def msgRequiredMessage : String := "Bitte geben Sie eine Nachricht ein."

def msgRequiredGeneric : String := "Dieses Feld ist erforderlich."

def msgInvalidEmail : String := "Bitte geben Sie eine gültige E-Mail-Adresse ein."

def msgInvalidPhone : String := "Bitte geben Sie eine gültige Telefonnummer ein."

def msgInvalidName : String := "Bitte geben Sie einen gültigen Namen ein (mindestens 2 Zeichen)."

def msgTooShort : String := "Ihre Nachricht sollte mindestens 10 Zeichen lang sein."

def msgTooLong : String := "Ihre Nachricht ist zu lang (maximal 1000 Zeichen)."

/-- The `type` attribute of a form control as read by `validateField`
(`field.type`); a textarea element reports type `textarea`. -/
inductive FieldType where
  | text
  | email
  | tel
  | checkbox
  | textarea
  | select
deriving DecidableEq

/-- A form control as `validateField` sees it: `name`, `type`, current
`value`, the `required` attribute, and (for checkboxes) `checked`. -/
structure Field where
  name : String
  type : FieldType
  value : List Char
  required : Bool
  checked : Bool
deriving DecidableEq

/-- Result of validating one field. -/
structure ValidationResult where
  isValid : Bool
  errorMessage : String
deriving DecidableEq

/-- The message chosen by the `switch (fieldName)` for a required empty field. -/
def requiredEmptyMessage (fieldName : String) : String :=
  if fieldName = "name" then msgRequiredName
  else if fieldName = "email" then msgRequiredEmail
  else if fieldName = "message" then msgRequiredMessage
  else msgRequiredGeneric

/-- `validateField` from the main script: trims the value, handles the
required-checkbox and required-empty cases, then for non-empty values runs
the type-specific regex switch followed by the message-length check. -/
def validateField (f : Field) : ValidationResult :=
  let value := jsTrim f.value
  let base : ValidationResult :=
    if f.type = FieldType.checkbox ∧ f.required = true then
      if f.checked = false then { isValid := false, errorMessage := msgPrivacy }
      else { isValid := true, errorMessage := "" }
    else if f.required = true ∧ value = [] then
      { isValid := false, errorMessage := requiredEmptyMessage f.name }
    else { isValid := true, errorMessage := "" }
  if value ≠ [] ∧ base.isValid = true then
    let afterSwitch : ValidationResult :=
      if f.type = FieldType.email then
        if emailRegexTest value then base
        else { isValid := false, errorMessage := msgInvalidEmail }
      else if f.type = FieldType.tel then
        if phoneRegexTest value then base
        else { isValid := false, errorMessage := msgInvalidPhone }
      else if f.type = FieldType.text ∧ f.name = "name" then
        if nameRegexTest value then base
        else { isValid := false, errorMessage := msgInvalidName }
      else base
    if f.type = FieldType.textarea ∧ f.name = "message" then
      if value.length < 10 then { isValid := false, errorMessage := msgTooShort }
      else if 1000 < value.length then { isValid := false, errorMessage := msgTooLong }
      else afterSwitch
    else afterSwitch
  else base

/-! Claim-side shape predicates, written from the specification's wording and
compared against the regex decision procedures above. -/

/-- A letter as claim C5 words it: a Latin letter or one of the German
characters ä ö ü Ä Ö Ü ß. -/
def isNameLetter (c : Char) : Bool :=
  (decide ('a' ≤ c) && decide (c ≤ 'z')) || (decide ('A' ≤ c) && decide (c ≤ 'Z')) ||
  c == 'ä' || c == 'ö' || c == 'ü' || c == 'Ä' || c == 'Ö' || c == 'Ü' || c == 'ß'

/-- The name rule as claim C5 states it: the value contains at least two
letters, and spaces, hyphens and periods are additionally allowed. -/
def nameClaimShape (cs : List Char) : Prop :=
  2 ≤ (cs.filter isNameLetter).length ∧
  ∀ c ∈ cs, isNameLetter c = true ∨ isJsWhitespace c = true ∨ c = '-' ∨ c = '.'

/-- The amended name rule: at least two characters in total, all drawn from
letters, whitespace, hyphens and periods. -/
def nameAmendedShape (cs : List Char) : Prop :=
  2 ≤ cs.length ∧
  ∀ c ∈ cs, isNameLetter c = true ∨ isJsWhitespace c = true ∨ c = '-' ∨ c = '.'

/-- A character the phone rule allows after the optional plus sign:
digits, whitespace, hyphens, parentheses and dots. -/
def phoneAllowedSpec (c : Char) : Prop :=
  c.isDigit = true ∨ isJsWhitespace c = true ∨ c = '-' ∨ c = '(' ∨ c = ')' ∨ c = '.'

/-- The part of a phone value after the optional leading plus sign. -/
def phoneClaimBody (cs : List Char) : List Char :=
  if cs.head? = some '+' then cs.tail else cs

/-- The international phone shape as claim C6 words it: an optional leading
plus sign followed by at least eight characters, each a digit, whitespace,
hyphen, parenthesis or dot. -/
def phoneClaimShape (cs : List Char) : Prop :=
  8 ≤ (phoneClaimBody cs).length ∧ ∀ c ∈ phoneClaimBody cs, phoneAllowedSpec c

instance nameClaimShapeDecidable (cs : List Char) : Decidable (nameClaimShape cs) := by
  unfold nameClaimShape
  infer_instance

instance nameAmendedShapeDecidable (cs : List Char) : Decidable (nameAmendedShape cs) := by
  unfold nameAmendedShape
  infer_instance

instance phoneAllowedSpecDecidable (c : Char) : Decidable (phoneAllowedSpec c) := by
  unfold phoneAllowedSpec
  infer_instance

instance phoneClaimShapeDecidable (cs : List Char) : Decidable (phoneClaimShape cs) := by
  unfold phoneClaimShape
  infer_instance

/-! The serverless form-submission handlers. -/

/-- The parsed JSON body received by the form-submission endpoints.
A field absent from the JSON object is `none`. -/
structure FormBody where
  name : Option String
  email : Option String
  phone : Option String
  courseInterest : Option String
  preferredContact : Option String
  message : Option String
  website : Option String
deriving DecidableEq

/-- JavaScript truthiness of a possibly-absent string field
(`undefined` and the empty string are falsy). -/
def truthy : Option String → Bool
  | none => false
  | some s => !s.isEmpty

/-- `formData[field]` for the names the handlers look up. -/
def getFormField (b : FormBody) : String → Option String
  | "name" => b.name
  | "email" => b.email
  | "courseInterest" => b.courseInterest
  | _ => none

/-- `const requiredFields = ['name', 'email', 'courseInterest']`. -/
def requiredFields : List String := ["name", "email", "courseInterest"]

/-- `requiredFields.filter(field => !formData[field])`. -/
def missingRequired (b : FormBody) : List String :=
  requiredFields.filter (fun f => !truthy (getFormField b f))

/-- A response body: an error object (optionally carrying `missingFields`),
a success object, or an empty body (`res.end()`). -/
inductive RespBody where
  | err (error : String) (missingFields : Option (List String))
  | ok (success : Bool) (message : String) (leadId : String)
  | empty
deriving DecidableEq

/-- An HTTP response as the handlers build it. -/
structure HttpResponse where
  statusCode : Nat
  body : RespBody
deriving DecidableEq

def msgMethodNotAllowed : String := "Method not allowed"

def msgMissingFields : String := "Fehlende Pflichtfelder"

def msgBadEmail : String := "Ungültige E-Mail-Adresse"

def msgSpam : String := "Spam detected"

def msgLeadSuccess : String :=
  "Vielen Dank für Ihre Anfrage! Wir werden uns bald bei Ihnen melden."

/-- The Netlify handler (`netlify/functions/contact-form.js`): reject non-POST
with 405, missing required fields with 400, a syntactically invalid email with
400, a non-empty honeypot `website` field with 400, and otherwise answer 200
with a success object. The generated lead id is passed in as a parameter. -/
def contactFormHandler (method : String) (b : FormBody) (leadId : String) :
    HttpResponse :=
  if method ≠ "POST" then
    { statusCode := 405, body := RespBody.err msgMethodNotAllowed none }
  else if missingRequired b ≠ [] then
    { statusCode := 400, body := RespBody.err msgMissingFields (some (missingRequired b)) }
  else if emailRegexTest (b.email.getD "").data = false then
    { statusCode := 400, body := RespBody.err msgBadEmail none }
  else if truthy b.website = true then
    { statusCode := 400, body := RespBody.err msgSpam none }
  else
    { statusCode := 200, body := RespBody.ok true msgLeadSuccess leadId }

/-- The Vercel handler (`api/contact.js`): identical to the Netlify handler
except that an OPTIONS preflight request is answered 200 with an empty body
before the method check. -/
def apiContactHandler (method : String) (b : FormBody) (leadId : String) :
    HttpResponse :=
  if method = "OPTIONS" then
    { statusCode := 200, body := RespBody.empty }
  else if method ≠ "POST" then
    { statusCode := 405, body := RespBody.err msgMethodNotAllowed none }
  else if missingRequired b ≠ [] then
    { statusCode := 400, body := RespBody.err msgMissingFields (some (missingRequired b)) }
  else if emailRegexTest (b.email.getD "").data = false then
    { statusCode := 400, body := RespBody.err msgBadEmail none }
  else if truthy b.website = true then
    { statusCode := 400, body := RespBody.err msgSpam none }
  else
    { statusCode := 200, body := RespBody.ok true msgLeadSuccess leadId }

/-! The form-controller state: per-field DOM error state, the form's child
nodes, and the submit button. -/

/-- A field together with its visual error state: the `error` CSS class and
the `.error-message` element appended next to it (if any). -/
structure FieldState where
  field : Field
  hasErrorClass : Bool
  shownError : Option String
deriving DecidableEq

/-- The first step of `validateField` on the DOM: remove the `error` class
and any existing `.error-message` element. -/
def clearFieldError (fs : FieldState) : FieldState :=
  { fs with hasErrorClass := false, shownError := none }

/-- A full `validateField` call as it acts on the DOM: clear the old error
state, then show the freshly computed error (if any). -/
def applyValidateField (fs : FieldState) : FieldState :=
  let cleared := clearFieldError fs
  let r := validateField fs.field
  if r.isValid then cleared
  else { cleared with hasErrorClass := true, shownError := some r.errorMessage }

/-- Validate the field at index `i` of a form, leaving others untouched. -/
def validateFieldAt (form : List FieldState) (i : Nat) : List FieldState :=
  match form[i]? with
  | some fs => form.set i (applyValidateField fs)
  | none => form

/-- Toggle the `checked` state of the field at index `i`. -/
def setCheckedAt (form : List FieldState) (i : Nat) (b : Bool) : List FieldState :=
  match form[i]? with
  | some fs => form.set i { fs with field := { fs.field with checked := b } }
  | none => form

/-- A child node of the form element, as far as the lifecycle code observes
it: a `.form-message` banner (success or error) or any other node. -/
inductive Child where
  | formMessage (success : Bool)
  | other (id : Nat)
deriving DecidableEq

def isFormMessage : Child → Bool
  | Child.formMessage _ => true
  | Child.other _ => false

/-- `form.querySelector('.form-message')` followed by `.remove()`:
drop the first `.form-message` child, if any. -/
def removeFirstFormMessage : List Child → List Child
  | [] => []
  | Child.formMessage _ :: rest => rest
  | c :: rest => c :: removeFirstFormMessage rest

def countFormMessages (cs : List Child) : Nat :=
  (cs.filter isFormMessage).length

/-- The state of the contact form element. -/
structure FormState where
  fields : List FieldState
  children : List Child
  buttonDisabled : Bool
  buttonLabel : String
deriving DecidableEq

/-- `validateForm`: run `validateField` over every field and report whether
all of them passed. -/
def validateFormB (fields : List FieldState) : Bool :=
  fields.all (fun fs => (validateField fs.field).isValid)

/-- `form.reset()` together with the error-clearing loop of
`handleFormSuccess`: values return to their (empty) defaults, checkboxes
uncheck, error classes and `.error-message` elements disappear. -/
def resetFieldState (fs : FieldState) : FieldState :=
  { field := { fs.field with value := [], checked := false },
    hasErrorClass := false, shownError := none }

/-- `handleFormSuccess`: remove any existing `.form-message`, insert the
success banner as the form's first child, reset all fields and clear their
error state, re-enable the submit button with its original label. -/
def handleFormSuccessF (form : FormState) (originalLabel : String) : FormState :=
  { fields := form.fields.map resetFieldState,
    children := Child.formMessage true :: removeFirstFormMessage form.children,
    buttonDisabled := false,
    buttonLabel := originalLabel }

/-- `handleFormError`: remove any existing `.form-message`, insert the error
banner as the form's first child, re-enable the submit button with its
original label (fields are left as they are). -/
def handleFormErrorF (form : FormState) (originalLabel : String) : FormState :=
  { form with
    children := Child.formMessage false :: removeFirstFormMessage form.children,
    buttonDisabled := false,
    buttonLabel := originalLabel }

/-- A pending `setTimeout` callback of the submit flow. -/
inductive TimerAction where
  | fireSuccess
  | fireError
  | removeFormMessage
deriving DecidableEq

/-- The form plus the scheduler state: pending timers (absolute fire time,
kept in ascending order — the flow never has more than one pending timer),
the submit handler's captured `originalButtonText`, and a log of fired
timers. -/
structure Sys where
  form : FormState
  timers : List (Nat × TimerAction)
  originalLabel : String
  fired : List (Nat × TimerAction)
deriving DecidableEq

/-- The submit listener installed by `initContactForm`, taken to run at time
zero: validate every field (with its DOM side effects); if any failed, stop
(the code scrolls to the first error); otherwise capture the button label,
disable the button, show the loading label, and schedule the simulated
success callback 2000 ms later. -/
def submitEvent (form : FormState) (loadingLabel : String) : Sys :=
  let validated := form.fields.map applyValidateField
  if validateFormB form.fields then
    { form := { form with
                  fields := validated
                  buttonDisabled := true
                  buttonLabel := loadingLabel },
      timers := [(2000, TimerAction.fireSuccess)],
      originalLabel := form.buttonLabel,
      fired := [] }
  else
    { form := { form with fields := validated },
      timers := [],
      originalLabel := form.buttonLabel,
      fired := [] }

/-- Fire one timer callback: the success (resp. error) handler runs and
schedules the banner's removal 8000 ms later; the removal callback deletes
the banner. -/
def fireTimer (a : TimerAction) (form : FormState) (originalLabel : String) :
    FormState × List (Nat × TimerAction) :=
  match a with
  | TimerAction.fireSuccess =>
    (handleFormSuccessF form originalLabel, [(8000, TimerAction.removeFormMessage)])
  | TimerAction.fireError =>
    (handleFormErrorF form originalLabel, [(8000, TimerAction.removeFormMessage)])
  | TimerAction.removeFormMessage =>
    ({ form with children := removeFirstFormMessage form.children }, [])

/-- Run every timer due by time `t`, earliest first; spawned timers fire at
their parent's fire time plus their delay. `fuel` bounds the number of
firings (two suffices for the whole submit flow). -/
def runSys : Nat → Sys → Nat → Sys
  | 0, s, _ => s
  | fuel + 1, s, t =>
    match s.timers with
    | [] => s
    | (ft, a) :: rest =>
      if ft ≤ t then
        let fired := fireTimer a s.form s.originalLabel
        runSys fuel
          { form := fired.1,
            timers := rest ++ fired.2.map (fun p => (ft + p.1, p.2)),
            originalLabel := s.originalLabel,
            fired := s.fired ++ [(ft, a)] } t
      else s

/-- The whole reference submit flow observed at time `t` (milliseconds after
the submit event). -/
def flowAt (form : FormState) (loadingLabel : String) (t : Nat) : Sys :=
  runSys 2 (submitEvent form loadingLabel) t

/-! Concrete fixtures used by witness theorems. -/

/-- A ten-character message textarea field. -/
def wMessageField : Field :=
  { name := "message", type := FieldType.textarea,
    value := "aaaaaaaaaa".toList, required := true, checked := false }

/-- A required tel field holding only whitespace. -/
def wPhoneField : Field :=
  { name := "phone", type := FieldType.tel, value := "   ".toList,
    required := true, checked := false }

/-- A well-formed email field. -/
def wEmailField : Field :=
  { name := "email", type := FieldType.email, value := "a@b.c".toList,
    required := true, checked := false }

/-- A field together with a clean DOM error state. -/
def wFieldState : FieldState :=
  { field := { name := "email", type := FieldType.email, value := "a@b.c".toList,
               required := true, checked := false },
    hasErrorClass := false, shownError := none }

/-- A required data-privacy checkbox, unchecked, with a clean DOM state. -/
def wCheckboxState : FieldState :=
  { field := { name := "privacy", type := FieldType.checkbox, value := "on".toList,
               required := true, checked := false },
    hasErrorClass := false, shownError := none }

/-- A one-field form with one non-message child and an enabled button. -/
def wForm : FormState :=
  { fields := [wFieldState], children := [Child.other 0],
    buttonDisabled := false, buttonLabel := "Nachricht senden" }

/-- A request body with every field absent. -/
def wEmptyBody : FormBody :=
  { name := none, email := none, phone := none, courseInterest := none,
    preferredContact := none, message := none, website := none }

/-- A complete, valid request body with an empty honeypot. -/
def wGoodBody : FormBody :=
  { name := some "Anna Muster", email := some "anna@example.de", phone := none,
    courseInterest := some "PPL", preferredContact := none,
    message := some "Ich interessiere mich für den Kurs.", website := none }

/-- A name field holding two periods — the counterexample value for C5. -/
def wDotsNameField : Field :=
  { name := "name", type := FieldType.text, value := "..".toList,
    required := true, checked := false }

/-- A well-formed name field. -/
def wNameField : Field :=
  { name := "name", type := FieldType.text, value := "Anna Muster".toList,
    required := true, checked := false }

/-- A well-formed tel field. -/
def wTelField : Field :=
  { name := "phone", type := FieldType.tel, value := "+34 123 456 78".toList,
    required := true, checked := false }

/-! Reduction lemmas for `validateField` on each field kind. -/

theorem validateField_email_eq (f : Field) (hty : f.type = FieldType.email)
    (hne : jsTrim f.value ≠ []) :
    validateField f =
      if emailRegexTest (jsTrim f.value) then { isValid := true, errorMessage := "" }
      else { isValid := false, errorMessage := msgInvalidEmail } := by
  simp [validateField, hty, hne]

theorem validateField_tel_eq (f : Field) (hty : f.type = FieldType.tel)
    (hne : jsTrim f.value ≠ []) :
    validateField f =
      if phoneRegexTest (jsTrim f.value) then { isValid := true, errorMessage := "" }
      else { isValid := false, errorMessage := msgInvalidPhone } := by
  simp [validateField, hty, hne]

theorem validateField_textName_eq (f : Field) (hty : f.type = FieldType.text)
    (hname : f.name = "name") (hne : jsTrim f.value ≠ []) :
    validateField f =
      if nameRegexTest (jsTrim f.value) then { isValid := true, errorMessage := "" }
      else { isValid := false, errorMessage := msgInvalidName } := by
  simp [validateField, hty, hname, hne]

theorem validateField_message_eq (f : Field) (hty : f.type = FieldType.textarea)
    (hname : f.name = "message") (hne : jsTrim f.value ≠ []) :
    validateField f =
      if (jsTrim f.value).length < 10 then
        { isValid := false, errorMessage := msgTooShort }
      else if 1000 < (jsTrim f.value).length then
        { isValid := false, errorMessage := msgTooLong }
      else { isValid := true, errorMessage := "" } := by
  simp [validateField, hty, hname, hne]

theorem validateField_checkbox_eq (f : Field) (hty : f.type = FieldType.checkbox)
    (hreq : f.required = true) :
    validateField f =
      if f.checked then { isValid := true, errorMessage := "" }
      else { isValid := false, errorMessage := msgPrivacy } := by
  cases hc : f.checked <;> simp [validateField, hty, hreq, hc]

/-! Facts about the email regex decision procedure. -/

theorem takeWhile_ne_at_append (pre post : List Char) (h : '@' ∉ pre) :
    (pre ++ '@' :: post).takeWhile (fun c => c != '@') = pre := by
  induction pre with
  | nil => simp
  | cons a as ih =>
    simp only [List.mem_cons, not_or] at h
    have ha : a ≠ '@' := fun hh => h.1 hh.symm
    simp [List.takeWhile_cons, ha, ih h.2]

theorem dropWhile_ne_at_append (pre post : List Char) (h : '@' ∉ pre) :
    (pre ++ '@' :: post).dropWhile (fun c => c != '@') = '@' :: post := by
  induction pre with
  | nil => simp
  | cons a as ih =>
    simp only [List.mem_cons, not_or] at h
    have ha : a ≠ '@' := fun hh => h.1 hh.symm
    simp [List.dropWhile_cons, ha, ih h.2]

/-- Splitting form of the email test on an explicit first at sign. -/
theorem emailRegexTest_append (pre post : List Char) (hpre : '@' ∉ pre) :
    emailRegexTest (pre ++ '@' :: post) =
      (!pre.isEmpty && pre.all emailClassChar && post.all emailClassChar &&
        ((post.drop 1).dropLast.any (fun c => c == '.'))) := by
  unfold emailRegexTest
  rw [takeWhile_ne_at_append pre post hpre, dropWhile_ne_at_append pre post hpre]

theorem emailRegexTest_of_no_at (cs : List Char) (h : '@' ∉ cs) :
    emailRegexTest cs = false := by
  have hd : cs.dropWhile (fun c => c != '@') = [] := by
    rw [List.dropWhile_eq_nil_iff]
    intro x hx
    simp only [bne_iff_ne, ne_eq]
    rintro rfl
    exact h hx
  unfold emailRegexTest
  rw [hd]

theorem emailRegexTest_of_no_dot (pre post : List Char) (hpre : '@' ∉ pre)
    (hdot : '.' ∉ post) : emailRegexTest (pre ++ '@' :: post) = false := by
  rw [emailRegexTest_append pre post hpre]
  have hany : ((post.drop 1).dropLast.any (fun c => c == '.')) = false := by
    rw [List.any_eq_false]
    intro x hx
    simp only [beq_iff_eq]
    rintro rfl
    exact hdot (List.drop_subset _ _ (List.dropLast_subset _ hx))
  rw [hany, Bool.and_false]

theorem emailRegexTest_of_shape (l d t : List Char) (hl : l ≠ []) (hd : d ≠ [])
    (ht : t ≠ []) (hall : ∀ c ∈ l ++ d ++ t, emailClassChar c = true) :
    emailRegexTest (l ++ '@' :: (d ++ '.' :: t)) = true := by
  have hlAt : '@' ∉ l := by
    intro hm
    have h := hall '@' (List.mem_append.2 (Or.inl (List.mem_append.2 (Or.inl hm))))
    exact absurd h (by decide)
  rw [emailRegexTest_append l (d ++ '.' :: t) hlAt]
  obtain ⟨c0, d', rfl⟩ : ∃ c0 d', d = c0 :: d' := by
    cases d with
    | nil => exact absurd rfl hd
    | cons c0 d' => exact ⟨c0, d', rfl⟩
  obtain ⟨y, t', rfl⟩ : ∃ y t', t = y :: t' := by
    cases t with
    | nil => exact absurd rfl ht
    | cons y t' => exact ⟨y, t', rfl⟩
  have hany : ((((c0 :: d') ++ '.' :: (y :: t')).drop 1).dropLast.any
      (fun c => c == '.')) = true := by
    rw [List.any_eq_true]
    refine ⟨'.', ?_, by simp⟩
    have hstep : (((c0 :: d') ++ '.' :: (y :: t')).drop 1).dropLast =
        d' ++ '.' :: (y :: t').dropLast := by
      simp only [List.cons_append, List.drop_succ_cons, List.drop_zero]
      rw [List.dropLast_append_cons]
      simp
    rw [hstep]
    simp
  have hlAll : l.all emailClassChar = true := by
    rw [List.all_eq_true]
    intro x hx
    exact hall x (List.mem_append.2 (Or.inl (List.mem_append.2 (Or.inl hx))))
  have hdomAll : ((c0 :: d') ++ '.' :: (y :: t')).all emailClassChar = true := by
    rw [List.all_eq_true]
    intro x hx
    rcases List.mem_append.1 hx with h1 | h2
    · exact hall x (List.mem_append.2 (Or.inl (List.mem_append.2 (Or.inr h1))))
    · rcases List.mem_cons.1 h2 with rfl | h3
      · decide
      · exact hall x (List.mem_append.2 (Or.inr h3))
  have hlne : l.isEmpty = false := by
    cases l with
    | nil => exact absurd rfl hl
    | cons a as => rfl
  rw [hlne, hlAll, hdomAll, hany]
  rfl

/-- C1: for an email field with a non-empty trimmed value, the value is
rejected with the invalid-email message when it has no at sign, or when the
part after the first at sign has no dot; and every value of the shape
local at domain dot tld — non-empty local part, domain and tld, none of
them containing whitespace or a further at sign — is accepted. -/
theorem C1_email_validation (f : Field) (hty : f.type = FieldType.email)
    (hne : jsTrim f.value ≠ []) :
    ('@' ∉ jsTrim f.value →
      validateField f = { isValid := false, errorMessage := msgInvalidEmail }) ∧
    (∀ pre post, jsTrim f.value = pre ++ '@' :: post → '@' ∉ pre → '.' ∉ post →
      validateField f = { isValid := false, errorMessage := msgInvalidEmail }) ∧
    (∀ l d t, l ≠ [] → d ≠ [] → t ≠ [] →
      (∀ c ∈ l ++ d ++ t, isJsWhitespace c = false ∧ c ≠ '@') →
      jsTrim f.value = l ++ '@' :: (d ++ '.' :: t) →
      (validateField f).isValid = true) := by
  have hred := validateField_email_eq f hty hne
  refine ⟨?_, ?_, ?_⟩
  · intro h
    rw [hred, emailRegexTest_of_no_at _ h]
    simp
  · intro pre post heq hpre hdot
    rw [hred, heq, emailRegexTest_of_no_dot pre post hpre hdot]
    simp
  · intro l d t hl hd ht hall heq
    have hall' : ∀ c ∈ l ++ d ++ t, emailClassChar c = true := by
      intro c hc
      have h := hall c hc
      simp [emailClassChar, h.1, h.2]
    rw [hred, heq, emailRegexTest_of_shape l d t hl hd ht hall']
    rfl

theorem C1_email_validation_witness :
    jsTrim wEmailField.value ≠ [] ∧
    (validateField wEmailField).isValid = true :=
  ⟨by decide,
    (C1_email_validation wEmailField rfl (by decide)).2.2 ['a'] ['b'] ['c']
      (by decide) (by decide) (by decide) (by decide) (by decide)⟩

/-- C2: for a required message textarea with a non-empty trimmed value,
validity holds exactly when the trimmed length lies within the interval
from 10 to 1000; below 10 the too-short message is produced (so 9
characters fail and 10 pass) and above 1000 the too-long message is
produced (so 1000 passes and 1001 fails). -/
theorem C2_message_length (f : Field) (hty : f.type = FieldType.textarea)
    (hname : f.name = "message") (_hreq : f.required = true)
    (hne : jsTrim f.value ≠ []) :
    ((validateField f).isValid = true ↔
      10 ≤ (jsTrim f.value).length ∧ (jsTrim f.value).length ≤ 1000) ∧
    ((jsTrim f.value).length < 10 →
      validateField f = { isValid := false, errorMessage := msgTooShort }) ∧
    (1000 < (jsTrim f.value).length →
      validateField f = { isValid := false, errorMessage := msgTooLong }) := by
  have h := validateField_message_eq f hty hname hne
  rw [h]
  refine ⟨?_, ?_, ?_⟩
  · split_ifs with h1 h2 <;> simp <;> omega
  · intro h1; simp [h1]
  · intro h2
    have h1 : ¬ (jsTrim f.value).length < 10 := by omega
    simp [h1, h2]

theorem C2_message_length_witness :
    jsTrim wMessageField.value ≠ [] ∧
    (validateField wMessageField).isValid = true :=
  ⟨by decide,
    ((C2_message_length wMessageField rfl rfl rfl (by decide)).1).mpr (by decide)⟩

/-- C8: a required non-checkbox field whose value trims to empty is invalid,
with the bespoke message for the names name, email and message and the
generic required-field message for every other name. -/
theorem C8_required_empty (f : Field) (hty : f.type ≠ FieldType.checkbox)
    (hreq : f.required = true) (hempty : jsTrim f.value = []) :
    validateField f =
      { isValid := false, errorMessage := requiredEmptyMessage f.name } ∧
    (f.name = "name" → requiredEmptyMessage f.name = msgRequiredName) ∧
    (f.name = "email" → requiredEmptyMessage f.name = msgRequiredEmail) ∧
    (f.name = "message" → requiredEmptyMessage f.name = msgRequiredMessage) ∧
    (f.name ≠ "name" → f.name ≠ "email" → f.name ≠ "message" →
      requiredEmptyMessage f.name = msgRequiredGeneric) := by
  refine ⟨by simp [validateField, hty, hreq, hempty], ?_, ?_, ?_, ?_⟩
  · intro h; simp [requiredEmptyMessage, h]
  · intro h; simp [requiredEmptyMessage, h]
  · intro h; simp [requiredEmptyMessage, h]
  · intro h1 h2 h3; simp [requiredEmptyMessage, h1, h2, h3]

/-! Pointwise correspondence between the regex character classes and the
claim-side allowed-character predicates. -/

theorem nameClassChar_iff (c : Char) :
    nameClassChar c = true ↔
      (isNameLetter c = true ∨ isJsWhitespace c = true ∨ c = '-' ∨ c = '.') := by
  simp only [nameClassChar, isNameLetter, Bool.or_eq_true, Bool.and_eq_true,
    decide_eq_true_eq, beq_iff_eq]
  tauto

theorem nameRegexTest_iff (cs : List Char) :
    nameRegexTest cs = true ↔ nameAmendedShape cs := by
  unfold nameRegexTest nameAmendedShape
  rw [Bool.and_eq_true, decide_eq_true_eq, List.all_eq_true]
  constructor
  · rintro ⟨h1, h2⟩
    exact ⟨h1, fun c hc => (nameClassChar_iff c).1 (h2 c hc)⟩
  · rintro ⟨h1, h2⟩
    exact ⟨h1, fun c hc => (nameClassChar_iff c).2 (h2 c hc)⟩

theorem phoneClassChar_iff (c : Char) :
    phoneClassChar c = true ↔ phoneAllowedSpec c := by
  simp only [phoneClassChar, phoneAllowedSpec, Bool.or_eq_true, beq_iff_eq]
  tauto

theorem phoneRegexTest_iff (cs : List Char) :
    phoneRegexTest cs = true ↔ phoneClaimShape cs := by
  unfold phoneRegexTest phoneClaimShape phoneClaimBody
  rw [Bool.and_eq_true, decide_eq_true_eq, List.all_eq_true]
  constructor
  · rintro ⟨h1, h2⟩
    exact ⟨h1, fun c hc => (phoneClassChar_iff c).1 (h2 c hc)⟩
  · rintro ⟨h1, h2⟩
    exact ⟨h1, fun c hc => (phoneClassChar_iff c).2 (h2 c hc)⟩

/-- C5 counterexample: a name value of two periods contains no letter at all,
so the rule as claimed calls it invalid, yet `validateField` accepts it —
the regex counts periods, hyphens and whitespace towards its two-character
minimum. -/
theorem C5_name_counterexample :
    (validateField wDotsNameField).isValid = true ∧
    ¬ nameClaimShape (jsTrim wDotsNameField.value) := by
  constructor
  · decide
  · decide

/-- C5 (amended): for a non-empty trimmed value of a text field named name,
`validateField` accepts the value exactly when it has at least two
characters, each a Latin letter, German diacritic, whitespace, hyphen or
period (a two-character minimum, not a two-letter minimum); a rejected value
carries the invalid-name message. -/
theorem C5_name_rule (f : Field) (hty : f.type = FieldType.text)
    (hname : f.name = "name") (hne : jsTrim f.value ≠ []) :
    ((validateField f).isValid = true ↔ nameAmendedShape (jsTrim f.value)) ∧
    ((validateField f).isValid = false →
      (validateField f).errorMessage = msgInvalidName) := by
  have hred := validateField_textName_eq f hty hname hne
  constructor
  · rw [hred]
    by_cases h : nameRegexTest (jsTrim f.value) = true
    · simp [h, (nameRegexTest_iff _).1 h]
    · have hno : ¬ nameAmendedShape (jsTrim f.value) :=
        fun hs => h ((nameRegexTest_iff _).2 hs)
      simp [h, hno]
  · rw [hred]
    by_cases h : nameRegexTest (jsTrim f.value) = true
    · simp [h]
    · simp [h]

theorem C5_name_rule_witness :
    jsTrim wNameField.value ≠ [] ∧ (validateField wNameField).isValid = true :=
  ⟨by decide, ((C5_name_rule wNameField rfl rfl (by decide)).1).mpr (by decide)⟩

/-- C6: for a non-empty trimmed value of a tel field, `validateField`
accepts the value exactly when it matches the international phone shape —
an optional leading plus sign followed by at least eight characters, each a
digit, whitespace, hyphen, parenthesis or dot; a rejected value carries the
invalid-phone message. -/
theorem C6_phone_rule (f : Field) (hty : f.type = FieldType.tel)
    (hne : jsTrim f.value ≠ []) :
    ((validateField f).isValid = true ↔ phoneClaimShape (jsTrim f.value)) ∧
    ((validateField f).isValid = false →
      (validateField f).errorMessage = msgInvalidPhone) := by
  have hred := validateField_tel_eq f hty hne
  constructor
  · rw [hred]
    by_cases h : phoneRegexTest (jsTrim f.value) = true
    · simp [h, (phoneRegexTest_iff _).1 h]
    · have hno : ¬ phoneClaimShape (jsTrim f.value) :=
        fun hs => h ((phoneRegexTest_iff _).2 hs)
      simp [h, hno]
  · rw [hred]
    by_cases h : phoneRegexTest (jsTrim f.value) = true
    · simp [h]
    · simp [h]

theorem C6_phone_rule_witness :
    jsTrim wTelField.value ≠ [] ∧ (validateField wTelField).isValid = true :=
  ⟨by decide, ((C6_phone_rule wTelField rfl (by decide)).1).mpr (by decide)⟩

theorem C8_required_empty_witness :
    wPhoneField.type ≠ FieldType.checkbox ∧
    validateField wPhoneField =
      { isValid := false, errorMessage := msgRequiredGeneric } :=
  ⟨by decide, by
    have h := C8_required_empty wPhoneField (by decide) rfl (by decide)
    rw [h.1, h.2.2.2.2 (by decide) (by decide) (by decide)]⟩

/-- The field component of a DOM validation pass is untouched. -/
theorem applyValidateField_field (fs : FieldState) :
    (applyValidateField fs).field = fs.field := by
  cases h : (validateField fs.field).isValid <;>
    simp [applyValidateField, clearFieldError, h]

/-- C7: with a required unchecked checkbox at index `i` of a form, that
field validates to false with the data-privacy message; after toggling it
to checked and re-validating it, it validates to true with a clean error
state, and every other index of the form is left exactly as it was. -/
theorem C7_checkbox_toggle (form : List FieldState) (i : Nat) (fs : FieldState)
    (hget : form[i]? = some fs) (hty : fs.field.type = FieldType.checkbox)
    (hreq : fs.field.required = true) (hunchecked : fs.field.checked = false) :
    validateField fs.field = { isValid := false, errorMessage := msgPrivacy } ∧
    (∃ fs', (validateFieldAt (setCheckedAt form i true) i)[i]? = some fs' ∧
      (validateField fs'.field).isValid = true ∧
      fs'.hasErrorClass = false ∧ fs'.shownError = none) ∧
    (∀ j, j ≠ i → (validateFieldAt (setCheckedAt form i true) i)[j]? = form[j]?) := by
  have hi : i < form.length := (List.getElem?_eq_some_iff.1 hget).1
  have hbefore : validateField fs.field =
      { isValid := false, errorMessage := msgPrivacy } := by
    rw [validateField_checkbox_eq fs.field hty hreq, hunchecked]
    simp
  set fs2 : FieldState := { fs with field := { fs.field with checked := true } } with hfs2
  have hset : setCheckedAt form i true = form.set i fs2 := by
    unfold setCheckedAt
    rw [hget]
  have hvalid2 : (validateField fs2.field).isValid = true := by
    rw [validateField_checkbox_eq fs2.field hty hreq]
    simp
  have hget2 : (form.set i fs2)[i]? = some fs2 := by
    rw [List.getElem?_set_self (by simpa using hi)]
  have hafter : validateFieldAt (setCheckedAt form i true) i =
      (form.set i fs2).set i (applyValidateField fs2) := by
    rw [hset]
    unfold validateFieldAt
    rw [hget2]
  refine ⟨hbefore, ⟨applyValidateField fs2, ?_, ?_, ?_, ?_⟩, ?_⟩
  · rw [hafter, List.getElem?_set_self (by simpa using hi)]
  · rw [applyValidateField_field]
    exact hvalid2
  · simp [applyValidateField, clearFieldError, hvalid2]
  · simp [applyValidateField, clearFieldError, hvalid2]
  · intro j hj
    rw [hafter, List.getElem?_set_ne (fun h => hj h.symm),
      List.getElem?_set_ne (fun h => hj h.symm)]

theorem C7_checkbox_toggle_witness :
    [wCheckboxState][0]? = some wCheckboxState ∧
    validateField wCheckboxState.field =
      { isValid := false, errorMessage := msgPrivacy } :=
  ⟨by decide,
    (C7_checkbox_toggle [wCheckboxState] 0 wCheckboxState rfl rfl rfl rfl).1⟩

/-- Removing the first form message from a list holding at most one leaves
none. -/
theorem countFormMessages_removeFirst (cs : List Child)
    (h : countFormMessages cs ≤ 1) :
    countFormMessages (removeFirstFormMessage cs) = 0 := by
  induction cs with
  | nil => rfl
  | cons c rest ih =>
    cases c with
    | formMessage s =>
      have hf : countFormMessages (Child.formMessage s :: rest) =
          countFormMessages rest + 1 := by
        simp [countFormMessages, List.filter_cons, isFormMessage]
      rw [hf] at h
      show countFormMessages rest = 0
      omega
    | other n =>
      have hf : countFormMessages (Child.other n :: rest) =
          countFormMessages rest := by
        simp [countFormMessages, List.filter_cons, isFormMessage]
      rw [hf] at h
      show countFormMessages (Child.other n :: removeFirstFormMessage rest) = 0
      have hk : countFormMessages (Child.other n :: removeFirstFormMessage rest) =
          countFormMessages (removeFirstFormMessage rest) := by
        simp [countFormMessages, List.filter_cons, isFormMessage]
      rw [hk]
      exact ih h

/-- C9: a `validateField` pass on a field's DOM state gives the same result
whatever error styling and message were shown before (they are cleared
first), and from a form with at most one form-message banner both the
success handler and the error handler leave exactly one. -/
theorem C9_invariants (fs : FieldState) (b : Bool) (m : Option String)
    (form : FormState) (lbl : String)
    (hle : countFormMessages form.children ≤ 1) :
    applyValidateField { fs with hasErrorClass := b, shownError := m } =
      applyValidateField fs ∧
    countFormMessages (handleFormSuccessF form lbl).children = 1 ∧
    countFormMessages (handleFormErrorF form lbl).children = 1 := by
  have h0 := countFormMessages_removeFirst form.children hle
  refine ⟨rfl, ?_, ?_⟩
  · show countFormMessages
      (Child.formMessage true :: removeFirstFormMessage form.children) = 1
    have hcons : countFormMessages
        (Child.formMessage true :: removeFirstFormMessage form.children) =
        countFormMessages (removeFirstFormMessage form.children) + 1 := by
      simp [countFormMessages, List.filter_cons, isFormMessage]
    rw [hcons, h0]
  · show countFormMessages
      (Child.formMessage false :: removeFirstFormMessage form.children) = 1
    have hcons : countFormMessages
        (Child.formMessage false :: removeFirstFormMessage form.children) =
        countFormMessages (removeFirstFormMessage form.children) + 1 := by
      simp [countFormMessages, List.filter_cons, isFormMessage]
    rw [hcons, h0]

/-- C3 counterexample: an OPTIONS request — a non-POST method — to the
Vercel variant of the form-submission endpoint is answered 200 (CORS
preflight), not 405 as the claim states. -/
theorem C3_endpoint_counterexample :
    (apiContactHandler "OPTIONS" wEmptyBody "lead1").statusCode = 200 ∧
    ¬ (apiContactHandler "OPTIONS" wEmptyBody "lead1").statusCode = 405 := by
  constructor
  · decide
  · decide

/-- C3 (amended): for every request to either form-submission endpoint, a
non-POST method is answered 405 — except an OPTIONS request to the Vercel
variant, which gets a 200 CORS-preflight answer with an empty body; a POST
missing required fields gets 400 with the error and the missing-field list;
a POST whose present email fails the regex gets 400; a POST with a
non-empty honeypot `website` field gets 400; every other POST gets 200 with
a success object carrying the message and lead id. -/
theorem C3_endpoint_contract (method : String) (b : FormBody) (leadId : String) :
    (method ≠ "POST" →
      contactFormHandler method b leadId =
        { statusCode := 405, body := RespBody.err msgMethodNotAllowed none }) ∧
    (method ≠ "POST" → method ≠ "OPTIONS" →
      apiContactHandler method b leadId =
        { statusCode := 405, body := RespBody.err msgMethodNotAllowed none }) ∧
    (apiContactHandler "OPTIONS" b leadId =
      { statusCode := 200, body := RespBody.empty }) ∧
    (missingRequired b ≠ [] →
      contactFormHandler "POST" b leadId =
        { statusCode := 400,
          body := RespBody.err msgMissingFields (some (missingRequired b)) } ∧
      apiContactHandler "POST" b leadId =
        { statusCode := 400,
          body := RespBody.err msgMissingFields (some (missingRequired b)) }) ∧
    (truthy b.email = true → emailRegexTest (b.email.getD "").data = false →
      (contactFormHandler "POST" b leadId).statusCode = 400 ∧
      (apiContactHandler "POST" b leadId).statusCode = 400) ∧
    (truthy b.website = true →
      (contactFormHandler "POST" b leadId).statusCode = 400 ∧
      (apiContactHandler "POST" b leadId).statusCode = 400) ∧
    (missingRequired b = [] → emailRegexTest (b.email.getD "").data = true →
      truthy b.website = false →
      contactFormHandler "POST" b leadId =
        { statusCode := 200, body := RespBody.ok true msgLeadSuccess leadId } ∧
      apiContactHandler "POST" b leadId =
        { statusCode := 200, body := RespBody.ok true msgLeadSuccess leadId }) := by
  refine ⟨?_, ?_, ?_, ?_, ?_, ?_, ?_⟩
  · intro h
    simp [contactFormHandler, h]
  · intro h h2
    simp [apiContactHandler, h, h2]
  · simp [apiContactHandler]
  · intro h
    constructor <;> simp [contactFormHandler, apiContactHandler, h]
  · intro hE htest
    by_cases hm : missingRequired b = []
    · constructor <;> simp [contactFormHandler, apiContactHandler, hm, htest]
    · constructor <;> simp [contactFormHandler, apiContactHandler, hm]
  · intro hW
    by_cases hm : missingRequired b = []
    · by_cases hE : emailRegexTest (b.email.getD "").data = false
      · constructor <;> simp [contactFormHandler, apiContactHandler, hm, hE]
      · constructor <;> simp [contactFormHandler, apiContactHandler, hm, hE, hW]
    · constructor <;> simp [contactFormHandler, apiContactHandler, hm]
  · intro hm hE hW
    constructor <;> simp [contactFormHandler, apiContactHandler, hm, hE, hW]

theorem C3_endpoint_contract_witness :
    ("GET" : String) ≠ "POST" ∧
    contactFormHandler "GET" wGoodBody "lead1" =
      { statusCode := 405, body := RespBody.err msgMethodNotAllowed none } ∧
    missingRequired wGoodBody = [] ∧
    contactFormHandler "POST" wGoodBody "lead1" =
      { statusCode := 200, body := RespBody.ok true msgLeadSuccess "lead1" } :=
  ⟨by decide,
    (C3_endpoint_contract "GET" wGoodBody "lead1").1 (by decide),
    by decide,
    ((C3_endpoint_contract "POST" wGoodBody "lead1").2.2.2.2.2.2
      (by decide) (by decide) (by decide)).1⟩

theorem C9_invariants_witness :
    countFormMessages wForm.children ≤ 1 ∧
    countFormMessages (handleFormSuccessF wForm "Nachricht senden").children = 1 :=
  ⟨by decide,
    (C9_invariants wFieldState false none wForm "Nachricht senden" (by decide)).2.1⟩

/-! The timed submit flow: its three regimes. -/

theorem countFormMessages_cons_fm (s : Bool) (cs : List Child) :
    countFormMessages (Child.formMessage s :: cs) = countFormMessages cs + 1 := by
  simp [countFormMessages, List.filter_cons, isFormMessage]

theorem mem_of_mem_removeFirstFormMessage (c : Child) (cs : List Child)
    (h : c ∈ removeFirstFormMessage cs) : c ∈ cs := by
  induction cs with
  | nil => exact h
  | cons d rest ih =>
    cases d with
    | formMessage s => exact List.mem_cons_of_mem _ h
    | other n =>
      rcases List.mem_cons.1 h with rfl | h2
      · exact List.mem_cons_self _ _
      · exact List.mem_cons_of_mem _ (ih h2)

theorem flowAt_invalid (form : FormState) (lbl : String) (t : Nat)
    (hok : validateFormB form.fields = false) :
    flowAt form lbl t = submitEvent form lbl := by
  have hsub : submitEvent form lbl =
      { form := { form with fields := form.fields.map applyValidateField },
        timers := [], originalLabel := form.buttonLabel, fired := [] } := by
    simp [submitEvent, hok]
  unfold flowAt
  rw [hsub]
  rfl

theorem flowAt_early (form : FormState) (lbl : String) (t : Nat)
    (hok : validateFormB form.fields = true) (ht : t < 2000) :
    flowAt form lbl t = submitEvent form lbl := by
  have h2 : ¬ 2000 ≤ t := by omega
  have hsub : submitEvent form lbl =
      { form := { form with
                    fields := form.fields.map applyValidateField
                    buttonDisabled := true
                    buttonLabel := lbl },
        timers := [(2000, TimerAction.fireSuccess)],
        originalLabel := form.buttonLabel, fired := [] } := by
    simp [submitEvent, hok]
  unfold flowAt
  rw [hsub]
  simp [runSys, h2]

theorem flowAt_mid (form : FormState) (lbl : String) (t : Nat)
    (hok : validateFormB form.fields = true) (h1 : 2000 ≤ t) (h2 : t < 10000) :
    flowAt form lbl t =
      { form := { fields :=
                    (form.fields.map applyValidateField).map resetFieldState,
                  children :=
                    Child.formMessage true :: removeFirstFormMessage form.children,
                  buttonDisabled := false,
                  buttonLabel := form.buttonLabel },
        timers := [(10000, TimerAction.removeFormMessage)],
        originalLabel := form.buttonLabel,
        fired := [(2000, TimerAction.fireSuccess)] } := by
  have h3 : ¬ 10000 ≤ t := by omega
  have hsub : submitEvent form lbl =
      { form := { form with
                    fields := form.fields.map applyValidateField
                    buttonDisabled := true
                    buttonLabel := lbl },
        timers := [(2000, TimerAction.fireSuccess)],
        originalLabel := form.buttonLabel, fired := [] } := by
    simp [submitEvent, hok]
  unfold flowAt
  rw [hsub]
  simp [runSys, fireTimer, handleFormSuccessF, h1, h3]

theorem flowAt_late (form : FormState) (lbl : String) (t : Nat)
    (hok : validateFormB form.fields = true) (h3 : 10000 ≤ t) :
    flowAt form lbl t =
      { form := { fields :=
                    (form.fields.map applyValidateField).map resetFieldState,
                  children := removeFirstFormMessage form.children,
                  buttonDisabled := false,
                  buttonLabel := form.buttonLabel },
        timers := [],
        originalLabel := form.buttonLabel,
        fired := [(2000, TimerAction.fireSuccess),
                  (10000, TimerAction.removeFormMessage)] } := by
  have h1 : 2000 ≤ t := by omega
  have hsub : submitEvent form lbl =
      { form := { form with
                    fields := form.fields.map applyValidateField
                    buttonDisabled := true
                    buttonLabel := lbl },
        timers := [(2000, TimerAction.fireSuccess)],
        originalLabel := form.buttonLabel, fired := [] } := by
    simp [submitEvent, hok]
  unfold flowAt
  rw [hsub]
  simp [runSys, fireTimer, handleFormSuccessF, removeFirstFormMessage, h1, h3]

/-- C4: after submitting a form whose fields all validate (with at most one
banner present beforehand), the submit button is disabled with the loading
label strictly before 2000 ms and re-enabled with its original label from
2000 ms on — one disable–enable round trip; at 2000 ms exactly one success
banner is inserted as the form's first child and every field is reset with
its error state cleared; the banner still exists at every instant before
10000 ms and is gone from 10000 ms — exactly 8000 ms after insertion and
not before. -/
theorem C4_submit_lifecycle (form : FormState) (lbl : String) (t : Nat)
    (hok : validateFormB form.fields = true)
    (hle : countFormMessages form.children ≤ 1) :
    (t < 2000 →
      (flowAt form lbl t).form.buttonDisabled = true ∧
      (flowAt form lbl t).form.buttonLabel = lbl ∧
      (flowAt form lbl t).form.children = form.children) ∧
    (2000 ≤ t → t < 10000 →
      (flowAt form lbl t).form.buttonDisabled = false ∧
      (flowAt form lbl t).form.buttonLabel = form.buttonLabel ∧
      (flowAt form lbl t).form.children =
        Child.formMessage true :: removeFirstFormMessage form.children ∧
      countFormMessages (flowAt form lbl t).form.children = 1 ∧
      (∀ fs ∈ (flowAt form lbl t).form.fields,
        fs.field.value = [] ∧ fs.hasErrorClass = false ∧ fs.shownError = none)) ∧
    (10000 ≤ t →
      (flowAt form lbl t).form.buttonDisabled = false ∧
      countFormMessages (flowAt form lbl t).form.children = 0) := by
  refine ⟨?_, ?_, ?_⟩
  · intro ht
    rw [flowAt_early form lbl t hok ht]
    simp [submitEvent, hok]
  · intro h1 h2
    rw [flowAt_mid form lbl t hok h1 h2]
    refine ⟨rfl, rfl, rfl, ?_, ?_⟩
    · rw [countFormMessages_cons_fm, countFormMessages_removeFirst form.children hle]
    · intro fs hfs
      rcases List.mem_map.1 hfs with ⟨x, _, rfl⟩
      exact ⟨rfl, rfl, rfl⟩
  · intro h3
    rw [flowAt_late form lbl t hok h3]
    exact ⟨rfl, countFormMessages_removeFirst form.children hle⟩

theorem C4_submit_lifecycle_witness :
    validateFormB wForm.fields = true ∧
    countFormMessages wForm.children ≤ 1 ∧
    (flowAt wForm "Wird gesendet..." 2000).form.buttonDisabled = false :=
  ⟨by decide, by decide,
    ((C4_submit_lifecycle wForm "Wird gesendet..." 2000 (by decide)
      (by decide)).2.1 (by decide) (by decide)).1⟩

/-- C10: along the reference submit flow the error handler is unreachable —
no fired timer is ever the error callback, every submission that passes
`validateForm` fires the success callback at exactly 2000 ms, and no error
banner can appear in a form that had none. -/
theorem C10_no_failure_path (form : FormState) (lbl : String) (t : Nat) :
    (∀ p ∈ (flowAt form lbl t).fired, p.2 ≠ TimerAction.fireError) ∧
    (validateFormB form.fields = true → 2000 ≤ t →
      (2000, TimerAction.fireSuccess) ∈ (flowAt form lbl t).fired) ∧
    (Child.formMessage false ∉ form.children →
      Child.formMessage false ∉ (flowAt form lbl t).form.children) := by
  cases hok : validateFormB form.fields with
  | false =>
    rw [flowAt_invalid form lbl t hok]
    refine ⟨?_, ?_, ?_⟩
    · intro p hp
      simp [submitEvent, hok] at hp
    · intro h
      simp [hok] at h
    · intro hno
      simpa [submitEvent, hok] using hno
  | true =>
    by_cases h1 : 2000 ≤ t
    · by_cases h3 : 10000 ≤ t
      · rw [flowAt_late form lbl t hok h3]
        refine ⟨?_, ?_, ?_⟩
        · intro p hp
          rcases List.mem_cons.1 hp with rfl | hp2
          · simp
          · rcases List.mem_cons.1 hp2 with rfl | hp3
            · simp
            · cases hp3
        · intro _ _
          exact List.mem_cons_self _ _
        · intro hno hmem
          exact hno (mem_of_mem_removeFirstFormMessage _ _ hmem)
      · have h2 : t < 10000 := by omega
        rw [flowAt_mid form lbl t hok h1 h2]
        refine ⟨?_, ?_, ?_⟩
        · intro p hp
          rcases List.mem_cons.1 hp with rfl | hp2
          · simp
          · cases hp2
        · intro _ _
          exact List.mem_cons_self _ _
        · intro hno hmem
          rcases List.mem_cons.1 hmem with hcontra | hmem2
          · cases hcontra
          · exact hno (mem_of_mem_removeFirstFormMessage _ _ hmem2)
    · have ht : t < 2000 := by omega
      rw [flowAt_early form lbl t hok ht]
      refine ⟨?_, ?_, ?_⟩
      · intro p hp
        simp [submitEvent, hok] at hp
      · intro _ h
        exact absurd h h1
      · intro hno
        simpa [submitEvent, hok] using hno

theorem C10_no_failure_path_witness :
    validateFormB wForm.fields = true ∧
    (2000, TimerAction.fireSuccess) ∈ (flowAt wForm "Wird gesendet..." 2500).fired :=
  ⟨by decide,
    (C10_no_failure_path wForm "Wird gesendet..." 2500).2.1 (by decide) (by decide)⟩

end Flugschule
